import Mathlib

/-!
# HorarioESP — reservation conflict and recurrence engine, shallow embedding

This file embeds the domain logic of `src/App.jsx` (a room-booking client):

* `ConsultaDisponibilidadView.handleBuscar` — the Availability Query
  (lines 1345–1389 of the source);
* `SalonesView.getSalonStatus` — the card-view room status (lines 1594–1602);
* `CalendarioView.calculateReservaPosition` — the Timeline Layout Engine
  (lines 1753–1770);
* `ReservaForm.handleSubmit` / `crearReservasRecurrentes` — submission
  validation and the Recurrence Expander (lines 2010–2125).

Instants (JavaScript `Date` values, compared numerically in the source) are
modelled as `Int` minutes; a calendar day is `1440` minutes, so
`setDate(getDate() + 7*i)` becomes `+ i * 7 * 1440`.  Clock-of-day values used
by the timeline engine are a separate `ClockTime` (hours, minutes), and the
fractional hour arithmetic of the source is carried out in `ℚ`.

The external store (Supabase) is modelled as a committed reservation list
`db : List Reserva` together with a per-call failure oracle
`fails : Nat → Bool` (call `k` returns an error).  A Supabase reply
`{ data, error }` is an `Option (List Reserva)`: `none` is an error reply
(`data` null), `some l` a successful reply.  The PostgREST filter string
issued by the probe —
`eq('salon_id', salon.id)` and
`or(and(fecha_inicio.lte.FIN, fecha_fin.gte.INICIO))` —
is translated literally into `probeCond`.
-/

namespace HorarioESP

/-- A room (`salones` rows): only the fields the embedded logic reads. -/
structure Salon where
  id : Nat
  capacidad : Nat
deriving DecidableEq, Repr

/-- A committed reservation as seen by the client snapshot and the store. -/
structure Reserva where
  salon_id : Nat
  fecha_inicio : Int
  fecha_fin : Int
deriving DecidableEq, Repr

/-- A reservation row assembled by the client for insertion. -/
structure NuevaReserva where
  salon_id : Nat
  user_id : Nat
  fecha_inicio : Int
  fecha_fin : Int
  proposito : String
deriving DecidableEq, Repr

/-! ## Availability Query (`ConsultaDisponibilidadView.handleBuscar`) -/

/-- The overlap test of `handleBuscar` (source line 1377):
`inicio < reservaFin && fin > reservaInicio`. -/
def overlapConsulta (inicio fin rInicio rFin : Int) : Bool :=
  decide (inicio < rFin) && decide (fin > rInicio)

/-- One element of the `resultado` array built by `handleBuscar`
(source lines 1380–1384). -/
structure ResultadoDisponibilidad where
  salon : Salon
  disponible : Bool
  conflicto : Option Reserva
deriving DecidableEq, Repr

/-- `handleBuscar` (source lines 1361–1387): filter rooms by capacity when a
minimum was supplied, then for each room `find` the first snapshot reservation
on that room overlapping the query window; `disponible` is the absence of such
a find, `conflicto` the found entry. -/
def handleBuscar (salones : List Salon) (reservas : List Reserva)
    (capacidadMinima : Option Nat) (inicio fin : Int) :
    List ResultadoDisponibilidad :=
  let salonesDisponibles : List Salon :=
    match capacidadMinima with
    | some m => salones.filter (fun s => decide (m ≤ s.capacidad))
    | none => salones
  salonesDisponibles.map (fun salon =>
    let conflicto := reservas.find? (fun r : Reserva =>
      r.salon_id == salon.id &&
        overlapConsulta inicio fin r.fecha_inicio r.fecha_fin)
    { salon := salon, disponible := conflicto.isNone, conflicto := conflicto })

/-! ## Card-view room status (`SalonesView.getSalonStatus`) -/

/-- `getSalonStatus` (source lines 1594–1602): a room is `"ocupado"` when some
reservation on it satisfies `fecha_inicio <= now && fecha_fin >= now`. -/
def getSalonStatus (reservas : List Reserva) (salonId : Nat) (now : Int) :
    String :=
  let reservasActivas := reservas.filter (fun r =>
    r.salon_id == salonId &&
      decide (r.fecha_inicio ≤ now) && decide (r.fecha_fin ≥ now))
  if reservasActivas.length > 0 then "ocupado" else "disponible"

/-! ## Timeline Layout Engine (`CalendarioView.calculateReservaPosition`) -/

/-- A clock-of-day instant: what `getHours()` / `getMinutes()` return. -/
structure ClockTime where
  hours : Nat
  minutes : Nat
deriving DecidableEq, Repr

/-- The fractional hour of day of a clock time (source lines 1758–1759):
`getHours() + getMinutes() / 60`. -/
def hourOfDay (t : ClockTime) : ℚ :=
  (t.hours : ℚ) + (t.minutes : ℚ) / 60

/-- `calculateReservaPosition` (source lines 1753–1770): clip the fractional
start hour below at 6 and the end hour above at 22, then
`top = (displayStartHour - 6) * 60` and
`height = (displayEndHour - displayStartHour) * 60`. -/
def calculateReservaPosition (start fin : ClockTime) : ℚ × ℚ :=
  let startHour := hourOfDay start
  let endHour := hourOfDay fin
  let displayStartHour := max startHour 6
  let displayEndHour := min endHour 22
  ((displayStartHour - 6) * 60, (displayEndHour - displayStartHour) * 60)

/-! ## Recurrence Expander (`ReservaForm.crearReservasRecurrentes`) -/

/-- The PostgREST filter of the per-occurrence probe (source line 2090):
`fecha_inicio.lte.FIN` and `fecha_fin.gte.INICIO`, both non-strict. -/
def probeCond (inicio fin rInicio rFin : Int) : Bool :=
  decide (rInicio ≤ fin) && decide (rFin ≥ inicio)

/-- The probe issued for occurrence `k` (source lines 2086–2090).  `none`
models an error reply (the source destructures only `data`, so an error
reply reaches the caller as a null `existentes`). -/
def probeReservas (db : List Reserva) (fails : Nat → Bool) (salonId k : Nat)
    (inicio fin : Int) : Option (List Reserva) :=
  if fails k then none
  else some (db.filter (fun r =>
    r.salon_id == salonId && probeCond inicio fin r.fecha_inicio r.fecha_fin))

/-- One entry of the `conflictos` array (source lines 2093–2096): the
1-indexed week number and the occurrence start instant (whose locale
rendering is the `fecha` string of the source). -/
structure Conflicto where
  semana : Nat
  fecha : Int
deriving DecidableEq, Repr

/-- Start instant of occurrence `i` (source lines 2074–2075):
`new Date(inicioBase)` advanced by `i * 7` days. -/
def occInicio (base : Int) (i : Nat) : Int :=
  base + (i : Int) * 7 * 1440

/-- The reservation row pushed for occurrence `i` (source lines 2098–2104). -/
def mkRow (salonId userId : Nat) (proposito : String) (inicioBase finBase : Int)
    (i : Nat) : NuevaReserva :=
  { salon_id := salonId
    user_id := userId
    fecha_inicio := occInicio inicioBase i
    fecha_fin := occInicio finBase i
    proposito := proposito ++ " (Semana " ++ toString (i + 1) ++ ")" }

/-- The conflict entry pushed for occurrence `i` (source lines 2093–2096). -/
def mkConf (inicioBase : Int) (i : Nat) : Conflicto :=
  { semana := i + 1, fecha := occInicio inicioBase i }

/-- The break guard (source line 2081): `fechaLimite && inicio > fechaLimite`
(`fechaLimite` is unset in fixed-count mode). -/
def pastLimite (fechaLimite : Option Int) (inicio : Int) : Bool :=
  match fechaLimite with
  | some d => decide (inicio > d)
  | none => false

/-- Whether the probe reply for occurrence `i` reports a conflict
(source line 2092): `existentes && existentes.length > 0` — an error reply
(`none`) is falsy and therefore counted as no conflict. -/
def isConfReply (reply : Option (List Reserva)) : Bool :=
  match reply with
  | some l => decide (0 < l.length)
  | none => false

/-- The output of the `for` loop of `crearReservasRecurrentes`:
the `reservas` and `conflictos` arrays, plus the trace `probed` of occurrence
indices for which a store probe was actually issued. -/
structure LoopOut where
  reservas : List NuevaReserva
  conflictos : List Conflicto
  probed : List Nat
deriving DecidableEq, Repr

/-- The `for` loop of `crearReservasRecurrentes` (source lines 2073–2106).
`i` is the current loop index and `n` the number of remaining iterations
(`numReservas - i`); the break on `fechaLimite` ends the loop early. -/
def recurLoop (db : List Reserva) (fails : Nat → Bool) (salonId userId : Nat)
    (proposito : String) (inicioBase finBase : Int)
    (fechaLimite : Option Int) : Nat → Nat → LoopOut
  | _, 0 => ⟨[], [], []⟩
  | i, n + 1 =>
    let inicio := occInicio inicioBase i
    let fin := occInicio finBase i
    if pastLimite fechaLimite inicio then ⟨[], [], []⟩
    else
      let reply := probeReservas db fails salonId i inicio fin
      let rest := recurLoop db fails salonId userId proposito inicioBase finBase
        fechaLimite (i + 1) n
      if isConfReply reply then
        ⟨rest.reservas, mkConf inicioBase i :: rest.conflictos, i :: rest.probed⟩
      else
        ⟨mkRow salonId userId proposito inicioBase finBase i :: rest.reservas,
          rest.conflictos, i :: rest.probed⟩

/-- The repetition policy: fixed week count (`tipoRecurrencia === 'weeks'`,
with `numSemanas`) or stop date (`'date'`, with `fechaFinRecurrencia`). -/
inductive TipoRecurrencia where
  | weeks (numSemanas : Nat)
  | date (fechaFinRecurrencia : Int)
deriving DecidableEq, Repr

/-- Computation of `numReservas` and `fechaLimite` (source lines 2055–2067).
In date mode: `diffTime = Math.abs(limiteDate - inicioBase)`,
`diffDays = Math.ceil(diffTime / msPerDay)` (ceiling division, here over
minutes), `numReservas = Math.floor(diffDays / 7) + 1`. -/
def numReservasOf (tipo : TipoRecurrencia) (inicioBase : Int) :
    Nat × Option Int :=
  match tipo with
  | .weeks n => (n, none)
  | .date d =>
    let diffTime := (d - inicioBase).natAbs
    let diffDays := (diffTime + 1439) / 1440
    (diffDays / 7 + 1, some d)

/-- Outcome of `crearReservasRecurrentes` after the loop (source lines
2108–2124): `.error cs` is the thrown conflict message (no insert issued),
`.ok rs` is the single batch insert of `rs`. -/
def crearReservasRecurrentes (db : List Reserva) (fails : Nat → Bool)
    (salonId userId : Nat) (proposito : String) (inicioBase finBase : Int)
    (tipo : TipoRecurrencia) : Except (List Conflicto) (List NuevaReserva) :=
  let nr := numReservasOf tipo inicioBase
  let out := recurLoop db fails salonId userId proposito inicioBase finBase
    nr.2 0 nr.1
  if out.conflictos.length > 0 then .error out.conflictos
  else .ok out.reservas

/-- The probe trace of a whole `crearReservasRecurrentes` run: occurrence
indices for which a store read was issued. -/
def probedIndices (db : List Reserva) (fails : Nat → Bool)
    (salonId userId : Nat) (proposito : String) (inicioBase finBase : Int)
    (tipo : TipoRecurrencia) : List Nat :=
  let nr := numReservasOf tipo inicioBase
  (recurLoop db fails salonId userId proposito inicioBase finBase
    nr.2 0 nr.1).probed

/-! ## Submission (`ReservaForm.handleSubmit`) -/

/-- What a submission resolves to: the validation throw (source lines
2019–2021, caught and surfaced inline), the single-row insert of
`crearReservaSimple` (lines 2036–2051), or the recurrence path. -/
inductive SubmitOutcome where
  | validationError (msg : String)
  | insertSimple (row : NuevaReserva)
  | recurrente (r : Except (List Conflicto) (List NuevaReserva))
deriving Repr

/-- `handleSubmit` (source lines 2010–2034): reject `fin <= inicio` before
any external call, otherwise dispatch to the recurring or the simple path. -/
def handleSubmit (db : List Reserva) (fails : Nat → Bool)
    (salonId userId : Nat) (proposito : String) (inicio fin : Int)
    (esRecurrente : Bool) (tipo : TipoRecurrencia) : SubmitOutcome :=
  if fin ≤ inicio then
    .validationError "La fecha de fin debe ser posterior a la fecha de inicio"
  else if esRecurrente then
    .recurrente (crearReservasRecurrentes db fails salonId userId proposito
      inicio fin tipo)
  else
    .insertSimple
      { salon_id := salonId, user_id := userId, fecha_inicio := inicio
        fecha_fin := fin, proposito := proposito }

/-! ## Declarative description of the loop (for the refinement theorems) -/

/-- The occurrence indices the loop processes before the break: the longest
prefix of `0, …, numReservas - 1` not past the stop date. -/
def occProcessed (inicioBase : Int) (fechaLimite : Option Int)
    (numReservas : Nat) : List Nat :=
  (List.range numReservas).takeWhile
    (fun i => !pastLimite fechaLimite (occInicio inicioBase i))

/-- Whether the probe for occurrence `i` finds at least one existing
reservation (the code's conflict test for that occurrence). -/
def isConfAt (db : List Reserva) (fails : Nat → Bool) (salonId : Nat)
    (inicioBase finBase : Int) (i : Nat) : Bool :=
  isConfReply (probeReservas db fails salonId i
    (occInicio inicioBase i) (occInicio finBase i))

/-! ## Helper lemmas -/

/-- Processed-prefix characterisation of the recurrence loop: the loop walks
indices `i, …, i+n-1` up to (excluding) the first index past the stop date,
probes each walked index, and splits the walked indices into conflict
entries and reservation rows according to the probe reply. -/
theorem recurLoop_eq (db : List Reserva) (fails : Nat → Bool)
    (salonId userId : Nat) (proposito : String) (inicioBase finBase : Int)
    (fechaLimite : Option Int) (i n : Nat) :
    recurLoop db fails salonId userId proposito inicioBase finBase
        fechaLimite i n =
      { reservas :=
          (((List.range' i n).takeWhile
              (fun j => !pastLimite fechaLimite (occInicio inicioBase j))).filter
            (fun j => !isConfAt db fails salonId inicioBase finBase j)).map
            (mkRow salonId userId proposito inicioBase finBase)
        conflictos :=
          (((List.range' i n).takeWhile
              (fun j => !pastLimite fechaLimite (occInicio inicioBase j))).filter
            (fun j => isConfAt db fails salonId inicioBase finBase j)).map
            (mkConf inicioBase)
        probed :=
          (List.range' i n).takeWhile
            (fun j => !pastLimite fechaLimite (occInicio inicioBase j)) } := by
  induction n generalizing i with
  | zero => simp [recurLoop]
  | succ n ih =>
    rw [List.range'_succ, recurLoop]
    cases hp : pastLimite fechaLimite (occInicio inicioBase i) with
    | true => simp [hp, List.takeWhile_cons]
    | false =>
      cases hc : isConfAt db fails salonId inicioBase finBase i with
      | true =>
        simp only [isConfAt] at hc
        simp [hp, hc, List.takeWhile_cons, ih, isConfAt]
      | false =>
        simp only [isConfAt] at hc
        simp [hp, hc, List.takeWhile_cons, ih, isConfAt]

end HorarioESP

namespace HorarioESP

/-! ## Claim theorems -/

/-- C1: for every query window `[inicio, fin)` and every entry of the
Availability Query result: the room is reported available iff no snapshot
reservation on that room overlaps the window under `a < d && b > c`; a
reported conflict is a snapshot reservation on that room satisfying that
predicate; and a reservation starting exactly at the window's end
(`b == c`, adjacent) is never reported as the conflict. -/
theorem availability_overlap_iff (salones : List Salon)
    (reservas : List Reserva) (capacidadMinima : Option Nat) (inicio fin : Int)
    (res : ResultadoDisponibilidad)
    (hres : res ∈ handleBuscar salones reservas capacidadMinima inicio fin) :
    (res.disponible = true ↔
      ∀ r ∈ reservas, r.salon_id = res.salon.id →
        ¬(inicio < r.fecha_fin ∧ fin > r.fecha_inicio)) ∧
    (∀ r, res.conflicto = some r →
      r ∈ reservas ∧ r.salon_id = res.salon.id ∧
        inicio < r.fecha_fin ∧ fin > r.fecha_inicio) ∧
    (∀ r, r.fecha_inicio = fin → res.conflicto ≠ some r) := by
  simp only [handleBuscar, List.mem_map] at hres
  obtain ⟨salon, _, rfl⟩ := hres
  refine ⟨?_, ?_, ?_⟩
  · simp only [Option.isNone_iff_eq_none, List.find?_eq_none, overlapConsulta,
      Bool.and_eq_true, beq_iff_eq, decide_eq_true_eq]
    constructor
    · intro h r hr hid hov
      exact h r hr ⟨hid, hov.1, hov.2⟩
    · intro h r hr hp
      exact h r hr hp.1 ⟨hp.2.1, hp.2.2⟩
  · intro r hfind
    have hp := List.find?_some hfind
    have hmem := List.mem_of_find?_eq_some hfind
    simp only [overlapConsulta, Bool.and_eq_true, beq_iff_eq,
      decide_eq_true_eq] at hp
    exact ⟨hmem, hp.1, hp.2.1, hp.2.2⟩
  · intro r hadj hfind
    have hp := List.find?_some hfind
    simp only [overlapConsulta, Bool.and_eq_true, beq_iff_eq,
      decide_eq_true_eq] at hp
    omega

/-- Concrete instance of `availability_overlap_iff`: one room, one snapshot
reservation `[600, 660)`, query window `[540, 600)` adjacent to it — the room
is reported available and nothing is reported as a conflict. -/
theorem availability_overlap_iff_witness :
    (⟨⟨1, 20⟩, true, none⟩ : ResultadoDisponibilidad).disponible = true ∧
    (∀ r, (⟨⟨1, 20⟩, true, none⟩ : ResultadoDisponibilidad).conflicto ≠
      some r) := by
  have h := availability_overlap_iff [⟨1, 20⟩] [⟨1, 600, 660⟩] none 540 600
    ⟨⟨1, 20⟩, true, none⟩ (by decide)
  refine ⟨(h.1).2 ?_, fun r => ?_⟩
  · intro r hr hid
    fin_cases hr
    simp
  · simp

/-- C8: the Timeline Layout Engine computes
`offset = (max startHour 6 - 6) * 60` and
`height = (min endHour 22 - max startHour 6) * 60` on fractional hours of
day; in particular 09:00–10:30 gives offset 180 and height 90, and
05:00–07:00 clips to offset 0 and height 60. -/
theorem timeline_layout (start fin : ClockTime) :
    calculateReservaPosition start fin =
      ((max (hourOfDay start) 6 - 6) * 60,
        (min (hourOfDay fin) 22 - max (hourOfDay start) 6) * 60) ∧
    calculateReservaPosition ⟨9, 0⟩ ⟨10, 30⟩ = (180, 90) ∧
    calculateReservaPosition ⟨5, 0⟩ ⟨7, 0⟩ = (0, 60) := by
  refine ⟨rfl, ?_, ?_⟩ <;>
    simp only [calculateReservaPosition, hourOfDay, Prod.mk.injEq] <;>
    norm_num

/-- C9: the card view classifies a room as `"ocupado"` iff some reservation
on it satisfies the closed-interval test `fecha_inicio ≤ now ∧ fecha_fin ≥
now`; in particular a reservation ending exactly at `now` still counts,
whereas the Availability Query's half-open test never flags a reservation
ending exactly at the window start. -/
theorem salon_status_closed_interval (reservas : List Reserva)
    (salonId : Nat) (now : Int) :
    (getSalonStatus reservas salonId now = "ocupado" ↔
      ∃ r ∈ reservas, r.salon_id = salonId ∧
        r.fecha_inicio ≤ now ∧ r.fecha_fin ≥ now) ∧
    (∀ r ∈ reservas, r.salon_id = salonId → r.fecha_inicio ≤ now →
      r.fecha_fin = now → getSalonStatus reservas salonId now = "ocupado") ∧
    (∀ b c : Int, overlapConsulta now b c now = false) := by
  have hiff : getSalonStatus reservas salonId now = "ocupado" ↔
      ∃ r ∈ reservas, r.salon_id = salonId ∧
        r.fecha_inicio ≤ now ∧ r.fecha_fin ≥ now := by
    simp only [getSalonStatus]
    split
    · rename_i hlen
      simp only [List.length_pos, ne_eq, List.filter_eq_nil_iff] at hlen
      push_neg at hlen
      obtain ⟨r, hr, hpr⟩ := hlen
      simp only [Bool.and_eq_true, beq_iff_eq, decide_eq_true_eq] at hpr
      simp only [true_iff]
      exact ⟨r, hr, hpr.1.1, hpr.1.2, hpr.2⟩
    · rename_i hlen
      simp only [List.length_pos, ne_eq, List.filter_eq_nil_iff,
        not_not] at hlen
      constructor
      · intro h
        exact absurd h (by decide)
      · rintro ⟨r, hr, hid, h1, h2⟩
        exact absurd (hlen r hr) (by simp [hid, h1, h2])
  refine ⟨hiff, ?_, ?_⟩
  · intro r hr hid h1 h2
    exact hiff.2 ⟨r, hr, hid, h1, by omega⟩
  · intro b c
    simp [overlapConsulta]

/-- Concrete instance of `salon_status_closed_interval`: a single
reservation `[0, 600]` on room 1 at `now = 600` (its exact end) makes the
room `"ocupado"`. -/
theorem salon_status_closed_interval_witness :
    getSalonStatus [⟨1, 0, 600⟩] 1 600 = "ocupado" := by
  exact (salon_status_closed_interval [⟨1, 0, 600⟩] 1 600).2.1
    ⟨1, 0, 600⟩ (by decide) rfl (by decide) rfl

/-- Branch characterisation of a whole `crearReservasRecurrentes` run, in
terms of the processed occurrence indices and the per-occurrence conflict
test (shared helper for the recurrence claims). -/
theorem crearReservasRecurrentes_eq_branches (db : List Reserva)
    (fails : Nat → Bool) (salonId userId : Nat) (proposito : String)
    (inicioBase finBase : Int) (tipo : TipoRecurrencia) :
    crearReservasRecurrentes db fails salonId userId proposito inicioBase
        finBase tipo =
      if ((occProcessed inicioBase (numReservasOf tipo inicioBase).2
            (numReservasOf tipo inicioBase).1).filter
          (fun j => isConfAt db fails salonId inicioBase finBase j)).isEmpty
      then
        .ok (((occProcessed inicioBase (numReservasOf tipo inicioBase).2
              (numReservasOf tipo inicioBase).1).filter
            (fun j => !isConfAt db fails salonId inicioBase finBase j)).map
          (mkRow salonId userId proposito inicioBase finBase))
      else
        .error (((occProcessed inicioBase (numReservasOf tipo inicioBase).2
              (numReservasOf tipo inicioBase).1).filter
            (fun j => isConfAt db fails salonId inicioBase finBase j)).map
          (mkConf inicioBase)) := by
  simp only [crearReservasRecurrentes, occProcessed, List.range_eq_range']
  rw [recurLoop_eq]
  cases hE : ((List.range' 0 (numReservasOf tipo inicioBase).1).takeWhile
      (fun j => !pastLimite (numReservasOf tipo inicioBase).2
        (occInicio inicioBase j))).filter
      (fun j => isConfAt db fails salonId inicioBase finBase j) with
  | nil => simp [hE]
  | cons a l => simp [hE]

/-- C2: all-or-nothing recurrence.  If some processed occurrence's probe
finds an existing reservation, the run throws (`.error`: no insert is
issued) and the thrown conflict list names exactly the conflicting
occurrence indices, 1-indexed (`mkConf j` carries `semana = j + 1`); if no
processed occurrence conflicts, the single batch insert carries all
generated occurrences. -/
theorem recurrence_all_or_nothing (db : List Reserva) (fails : Nat → Bool)
    (salonId userId : Nat) (proposito : String) (inicioBase finBase : Int)
    (tipo : TipoRecurrencia) :
    (((occProcessed inicioBase (numReservasOf tipo inicioBase).2
          (numReservasOf tipo inicioBase).1).filter
        (fun j => isConfAt db fails salonId inicioBase finBase j)) ≠ [] →
      crearReservasRecurrentes db fails salonId userId proposito inicioBase
          finBase tipo =
        .error (((occProcessed inicioBase (numReservasOf tipo inicioBase).2
              (numReservasOf tipo inicioBase).1).filter
            (fun j => isConfAt db fails salonId inicioBase finBase j)).map
          (mkConf inicioBase))) ∧
    (((occProcessed inicioBase (numReservasOf tipo inicioBase).2
          (numReservasOf tipo inicioBase).1).filter
        (fun j => isConfAt db fails salonId inicioBase finBase j)) = [] →
      crearReservasRecurrentes db fails salonId userId proposito inicioBase
          finBase tipo =
        .ok ((occProcessed inicioBase (numReservasOf tipo inicioBase).2
            (numReservasOf tipo inicioBase).1).map
          (mkRow salonId userId proposito inicioBase finBase))) ∧
    (∀ l : List Nat,
      (l.map (mkConf inicioBase)).map Conflicto.semana =
        l.map (fun j => j + 1)) := by
  refine ⟨?_, ?_, ?_⟩
  · intro hne
    rw [crearReservasRecurrentes_eq_branches, if_neg]
    simp [List.isEmpty_iff, hne]
  · intro heq
    rw [crearReservasRecurrentes_eq_branches, if_pos (by simp [heq])]
    have hall := List.filter_eq_nil_iff.mp heq
    have hfil : (occProcessed inicioBase (numReservasOf tipo inicioBase).2
        (numReservasOf tipo inicioBase).1).filter
          (fun j => !isConfAt db fails salonId inicioBase finBase j) =
        occProcessed inicioBase (numReservasOf tipo inicioBase).2
          (numReservasOf tipo inicioBase).1 := by
      apply List.filter_eq_self.mpr
      intro a ha
      simp [hall a ha]
    rw [hfil]
  · intro l
    simp [List.map_map, mkConf, Function.comp]

/-- Concrete instances of `recurrence_all_or_nothing`: with a committed
reservation overlapping only occurrence 1 (0-indexed), a 3-week run throws
with exactly week 2; with an empty store, a 2-week run batch-inserts both
rows. -/
theorem recurrence_all_or_nothing_witness :
    crearReservasRecurrentes [⟨1, 10080, 10140⟩] (fun _ => false) 1 2 "p" 0 60
        (.weeks 3) = .error [⟨2, 10080⟩] ∧
    crearReservasRecurrentes [] (fun _ => false) 1 2 "p" 0 60 (.weeks 2) =
      .ok [mkRow 1 2 "p" 0 60 0, mkRow 1 2 "p" 0 60 1] := by
  constructor
  · rw [(recurrence_all_or_nothing [⟨1, 10080, 10140⟩] (fun _ => false) 1 2 "p"
      0 60 (.weeks 3)).1 (by decide)]
    rfl
  · rw [(recurrence_all_or_nothing [] (fun _ => false) 1 2 "p" 0 60
      (.weeks 2)).2.1 (by decide)]
    rfl

/-- C6: a fixed-count recurrence with N = 4 whose four probes all come back
conflict-free issues the single batch insert of exactly the 4 generated
rows; row k + 1 starts exactly 7 days (7 × 1440 minutes) after row k, and
every row keeps the base window's duration. -/
theorem recurrence_four_weeks (db : List Reserva) (fails : Nat → Bool)
    (salonId userId : Nat) (proposito : String) (inicioBase finBase : Int)
    (hconf : ∀ i, i < 4 →
      isConfAt db fails salonId inicioBase finBase i = false) :
    crearReservasRecurrentes db fails salonId userId proposito inicioBase
        finBase (.weeks 4) =
      .ok ((List.range 4).map
        (mkRow salonId userId proposito inicioBase finBase)) ∧
    ((List.range 4).map
      (mkRow salonId userId proposito inicioBase finBase)).length = 4 ∧
    (∀ k, k < 3 →
      (((List.range 4).map (mkRow salonId userId proposito inicioBase
          finBase)).getD (k + 1) ⟨0, 0, 0, 0, ""⟩).fecha_inicio =
        (((List.range 4).map (mkRow salonId userId proposito inicioBase
          finBase)).getD k ⟨0, 0, 0, 0, ""⟩).fecha_inicio + 7 * 1440) ∧
    (∀ k, k < 4 →
      (((List.range 4).map (mkRow salonId userId proposito inicioBase
          finBase)).getD k ⟨0, 0, 0, 0, ""⟩).fecha_fin -
        (((List.range 4).map (mkRow salonId userId proposito inicioBase
          finBase)).getD k ⟨0, 0, 0, 0, ""⟩).fecha_inicio =
        finBase - inicioBase) := by
  have hidx : occProcessed inicioBase (numReservasOf (.weeks 4) inicioBase).2
      (numReservasOf (.weeks 4) inicioBase).1 = [0, 1, 2, 3] := rfl
  have hfil : ([0, 1, 2, 3] : List Nat).filter
      (fun j => isConfAt db fails salonId inicioBase finBase j) = [] := by
    apply List.filter_eq_nil_iff.mpr
    intro a ha
    have ha4 : a < 4 := by fin_cases ha <;> omega
    simp [hconf a ha4]
  refine ⟨?_, rfl, ?_, ?_⟩
  · rw [crearReservasRecurrentes_eq_branches, hidx, hfil,
      if_pos List.isEmpty_nil]
    have hfil2 : ([0, 1, 2, 3] : List Nat).filter
        (fun j => !isConfAt db fails salonId inicioBase finBase j) =
        [0, 1, 2, 3] := by
      apply List.filter_eq_self.mpr
      intro a ha
      have ha4 : a < 4 := by fin_cases ha <;> omega
      simp [hconf a ha4]
    rw [hfil2]
    rfl
  · intro k hk
    interval_cases k <;>
      simp [mkRow, occInicio, List.getD_cons_zero, List.getD_cons_succ] <;>
      ring
  · intro k hk
    interval_cases k <;>
      simp [mkRow, occInicio, List.getD_cons_zero, List.getD_cons_succ]

/-- Concrete instance of `recurrence_four_weeks`: empty store, probes never
fail, base window `[0, 60)` — the batch insert carries the 4 rows. -/
theorem recurrence_four_weeks_witness :
    crearReservasRecurrentes [] (fun _ => false) 1 2 "p" 0 60 (.weeks 4) =
      .ok ((List.range 4).map (mkRow 1 2 "p" 0 60)) :=
  (recurrence_four_weeks [] (fun _ => false) 1 2 "p" 0 60 (by decide)).1

/-- C3 (code-bug evidence): the probe reply is destructured to `data` only,
so an error reply is treated as zero conflicts and the batch insert is still
issued.  Concretely: the store holds a reservation covering the whole
occurrence window, every probe errors (`fails` always true) — the run still
ends in `.ok` (insert issued); the same probe without the error would have
reported the conflict. -/
theorem recurrence_failed_probe_still_inserts :
    crearReservasRecurrentes [⟨1, 0, 100000⟩] (fun _ => true) 1 2 "Clase" 0 60
        (.weeks 1) = .ok [⟨1, 2, 0, 60, "Clase (Semana 1)"⟩] ∧
    probeReservas [⟨1, 0, 100000⟩] (fun _ => true) 1 0 0 60 = none ∧
    probeReservas [⟨1, 0, 100000⟩] (fun _ => false) 1 0 0 60 =
      some [⟨1, 0, 100000⟩] :=
  ⟨rfl, rfl, rfl⟩

/-- C4 counterexample: a committed reservation `[540, 600)` exactly adjacent
to the occurrence window `[600, 660)` is reported as a conflict by the
recurrence probe, while the Availability Query on the same data reports the
room available (its half-open predicate does not flag adjacency). -/
theorem probe_vs_availability_cex :
    isConfAt [⟨1, 540, 600⟩] (fun _ => false) 1 600 660 0 = true ∧
    overlapConsulta 600 660 540 600 = false ∧
    handleBuscar [⟨1, 20⟩] [⟨1, 540, 600⟩] none 600 660 =
      [⟨⟨1, 20⟩, true, none⟩] :=
  ⟨rfl, rfl, rfl⟩

/-- C4 (amended): the recurrence probe flags an existing reservation
`[c, d)` against an occurrence `[inicio, fin)` iff `c ≤ fin ∧ d ≥ inicio` —
a closed-interval test.  It flags exactly what the Availability Query
predicate flags plus the merely-touching cases (`d = inicio` or
`c = fin`). -/
theorem probe_closed_interval (inicio fin rInicio rFin : Int) :
    (probeCond inicio fin rInicio rFin = true ↔
      rInicio ≤ fin ∧ rFin ≥ inicio) ∧
    (probeCond inicio fin rInicio rFin = true ↔
      (overlapConsulta inicio fin rInicio rFin = true ∨
        (rFin = inicio ∧ rInicio ≤ fin) ∨
        (rInicio = fin ∧ rFin ≥ inicio))) := by
  refine ⟨?_, ?_⟩
  · simp only [probeCond, Bool.and_eq_true, decide_eq_true_eq, ge_iff_le]
  · simp only [probeCond, overlapConsulta, Bool.and_eq_true,
      decide_eq_true_eq, ge_iff_le, gt_iff_lt]
    omega

/-- C5 counterexample: snapshot `[600, 660)` then `[660, 720)` on room 1,
query window `[630, 690)` — the reported conflict is the first snapshot
entry, not the second as the claim states (both overlap; `find` returns the
first). -/
theorem availability_first_match_cex :
    ((handleBuscar [⟨1, 20⟩] [⟨1, 600, 660⟩, ⟨1, 660, 720⟩] none 630 690).map
      (fun res => res.conflicto)) = [some ⟨1, 600, 660⟩] ∧
    (⟨1, 600, 660⟩ : Reserva) ≠ ⟨1, 660, 720⟩ :=
  ⟨rfl, by decide⟩

/-- C5 (amended): with snapshot order `[600, 660)`, `[660, 720)` on the same
room, the Availability Query over `[630, 690)` reports the room unavailable
with exactly one conflicting reservation, namely the first one in snapshot
order. -/
theorem availability_first_match :
    handleBuscar [⟨1, 20⟩] [⟨1, 600, 660⟩, ⟨1, 660, 720⟩] none 630 690 =
      [⟨⟨1, 20⟩, false, some ⟨1, 600, 660⟩⟩] := rfl

/-- C7: a submission with `fin ≤ inicio` resolves to the validation throw
before any external call (no insert outcome of any kind), and any simple
insert that does get issued satisfies the end-after-start invariant. -/
theorem submit_rejects_inverted (db : List Reserva) (fails : Nat → Bool)
    (salonId userId : Nat) (proposito : String) (inicio fin : Int)
    (esRecurrente : Bool) (tipo : TipoRecurrencia) :
    (fin ≤ inicio →
      handleSubmit db fails salonId userId proposito inicio fin esRecurrente
          tipo =
        .validationError
          "La fecha de fin debe ser posterior a la fecha de inicio") ∧
    (∀ row, handleSubmit db fails salonId userId proposito inicio fin
        esRecurrente tipo = .insertSimple row →
      row.fecha_inicio < row.fecha_fin) := by
  constructor
  · intro h
    simp [handleSubmit, h]
  · intro row hrow
    simp only [handleSubmit] at hrow
    split at hrow
    · simp at hrow
    · split at hrow
      · simp at hrow
      · rename_i hle _
        injection hrow with h
        subst h
        simp only []
        omega

/-- Concrete instance of `submit_rejects_inverted`: an inverted window
`[60, 0]` is rejected with the inline validation message, and a valid
simple submission `[0, 60]` yields a row with end after start. -/
theorem submit_rejects_inverted_witness :
    handleSubmit [] (fun _ => false) 1 2 "p" 60 0 false (.weeks 1) =
      .validationError
        "La fecha de fin debe ser posterior a la fecha de inicio" ∧
    (⟨1, 2, 0, 60, "p"⟩ : NuevaReserva).fecha_inicio <
      (⟨1, 2, 0, 60, "p"⟩ : NuevaReserva).fecha_fin := by
  constructor
  · exact (submit_rejects_inverted [] (fun _ => false) 1 2 "p" 60 0 false
      (.weeks 1)).1 (by decide)
  · exact (submit_rejects_inverted [] (fun _ => false) 1 2 "p" 0 60 false
      (.weeks 1)).2 ⟨1, 2, 0, 60, "p"⟩ rfl

/-- C10: a date-bounded recurrence whose stop date lies strictly before the
base start breaks out of the loop at occurrence 0: no occurrence is
generated, no probe is issued, and the run ends in the success path with an
empty batch insert (`.ok []`), not a validation error. -/
theorem recurrence_stop_before_start (db : List Reserva) (fails : Nat → Bool)
    (salonId userId : Nat) (proposito : String) (inicioBase finBase d : Int)
    (hd : d < inicioBase) :
    crearReservasRecurrentes db fails salonId userId proposito inicioBase
        finBase (.date d) = .ok [] ∧
    probedIndices db fails salonId userId proposito inicioBase finBase
      (.date d) = [] := by
  have htw : ∀ n : Nat, (List.range' 0 n).takeWhile
      (fun j => !pastLimite (some d) (occInicio inicioBase j)) = [] := by
    intro n
    cases n with
    | zero => rfl
    | succ m =>
      rw [List.range'_succ, List.takeWhile_cons, if_neg]
      simp only [pastLimite, occInicio, Bool.not_eq_true', decide_eq_false_iff_not,
        not_lt, gt_iff_lt]
      intro h
      exfalso
      suffices hx : d < inicioBase + (0 : Nat) * 7 * 1440 by
        simp at h
        omega
      push_cast
      omega
  constructor
  · rw [crearReservasRecurrentes_eq_branches]
    have : occProcessed inicioBase (numReservasOf (.date d) inicioBase).2
        (numReservasOf (.date d) inicioBase).1 = [] := by
      simp only [numReservasOf, occProcessed, List.range_eq_range']
      exact htw _
    rw [this]
    rfl
  · simp only [probedIndices, numReservasOf]
    rw [recurLoop_eq]
    exact htw _

/-- Concrete instance of `recurrence_stop_before_start`: stop date 0,
base start 1440 — `.ok []` and no probe issued. -/
theorem recurrence_stop_before_start_witness :
    crearReservasRecurrentes [] (fun _ => false) 1 2 "p" 1440 1500
        (.date 0) = .ok [] ∧
    probedIndices [] (fun _ => false) 1 2 "p" 1440 1500 (.date 0) = [] :=
  recurrence_stop_before_start [] (fun _ => false) 1 2 "p" 1440 1500 0
    (by decide)

end HorarioESP
